import Mathlib

/-
  Verification of the desktop-capture layer of the screenshot_gnome repository.

  The Rust sources under src/capture (window_backends.rs, desktop.rs, window.rs,
  screen.rs) and the geometry helpers (editor/annotations.rs, app/state.rs) are
  shallowly embedded below.  Strings are modelled as `List Char` at the parser
  level (Rust operates on ASCII compositor output; `char` indices and byte
  indices coincide on the inputs considered).  Machine integers are modelled as
  `Nat`/`Int` with explicit 2^32 / 2^31 bounds where Rust parsing or casts make
  overflow observable.  External effects (subprocess spawning, the temp-file
  filesystem, the xcap library, PNG decoding) are modelled by an explicit
  `World` oracle plus a list-of-paths filesystem, and every capture/listing
  function additionally returns the trace of subprocess invocations it made.
-/

namespace SG

abbrev Chars := List Char

/-- ASCII whitespace, as produced by the compositor outputs the code parses. -/
def isWs (c : Char) : Bool := c == ' ' || c == '\t' || c == '\n' || c == '\r'

/-- Rust `str::trim_start`. -/
def trimStartChars (s : Chars) : Chars := s.dropWhile isWs

/-- Rust `str::trim` (both ends). -/
def trimChars (s : Chars) : Chars :=
  ((s.dropWhile isWs).reverse.dropWhile isWs).reverse

/-- Does `p` occur at the head of `s`?  (Rust `str::starts_with`.) -/
def leadsWith : Chars → Chars → Bool
  | [], _ => true
  | _ :: _, [] => false
  | p :: ps, c :: cs => p == c && leadsWith ps cs

/-- Rust `str::find(pattern)`: index of the first occurrence of `pat` in `s`. -/
def findSub : Chars → Chars → Option Nat
  | [], pat => if leadsWith pat [] then some 0 else none
  | c :: cs, pat =>
    if leadsWith pat (c :: cs) then some 0
    else (findSub cs pat).map (· + 1)

/-- Rust `str::contains(pattern)`. -/
def containsSub (s pat : Chars) : Bool := (findSub s pat).isSome

/-- Rust `str::ends_with(char)`. -/
def endsWithChar (c : Char) (s : Chars) : Bool :=
  match s.getLast? with
  | some d => d == c
  | none => false

def digitVal (c : Char) : Nat := c.toNat - 48

def natOfDigits : Chars → Nat → Nat
  | [], acc => acc
  | c :: cs, acc => natOfDigits cs (acc * 10 + digitVal c)

/-- Rust `str::parse::<u32>()`: optional leading plus sign, then ascii digits,
    failing on overflow past the u32 range. -/
def parseU32 (s : Chars) : Option Nat :=
  let body := match s with
    | '+' :: rest => rest
    | _ => s
  if !body.isEmpty && body.all (·.isDigit) then
    let v := natOfDigits body 0
    if v < 2 ^ 32 then some v else none
  else none

/-- Rust `str::parse::<i32>()`: optional sign, ascii digits, i32 bounds. -/
def parseI32 (s : Chars) : Option Int :=
  match s with
  | '-' :: rest =>
    if !rest.isEmpty && rest.all (·.isDigit) then
      let v := natOfDigits rest 0
      if v ≤ 2 ^ 31 then some (-(v : Int)) else none
    else none
  | '+' :: rest =>
    if !rest.isEmpty && rest.all (·.isDigit) then
      let v := natOfDigits rest 0
      if v < 2 ^ 31 then some (v : Int) else none
    else none
  | _ =>
    if !s.isEmpty && s.all (·.isDigit) then
      let v := natOfDigits s 0
      if v < 2 ^ 31 then some (v : Int) else none
    else none

def isHexDigitChar (c : Char) : Bool :=
  c.isDigit || ('a' ≤ c && c ≤ 'f') || ('A' ≤ c && c ≤ 'F')

def hexDigitVal (c : Char) : Nat :=
  if c.isDigit then c.toNat - 48
  else if 'a' ≤ c && c ≤ 'f' then c.toNat - 87
  else c.toNat - 55

def natOfHexDigits : Chars → Nat → Nat
  | [], acc => acc
  | c :: cs, acc => natOfHexDigits cs (acc * 16 + hexDigitVal c)

/-- Rust `u32::from_str_radix(s, 16)`. -/
def parseHexU32 (s : Chars) : Option Nat :=
  let body := match s with
    | '+' :: rest => rest
    | _ => s
  if !body.isEmpty && body.all isHexDigitChar then
    let v := natOfHexDigits body 0
    if v < 2 ^ 32 then some v else none
  else none

/-- Rust `str::trim_start_matches("0x")`: strips every leading `0x`. -/
def stripHexMarks : Chars → Chars
  | '0' :: 'x' :: rest => stripHexMarks rest
  | s => s

/-- The u32 value reinterpreted as an i32 (Rust `as i32`). -/
def u32AsI32 (n : Nat) : Int :=
  if n < 2 ^ 31 then (n : Int) else (n : Int) - 2 ^ 32

/-- The i32 value reinterpreted as a u32 (Rust `as u32`). -/
def i32AsU32 (n : Int) : Nat := (n % 2 ^ 32).toNat

/-- The search pattern `"key":` built by every JSON field extractor. -/
def keyPattern (key : Chars) : Chars := '"' :: (key ++ ['"', ':'])

/-- The scan inside `extract_json_string`: characters of a JSON string up to
    the first unescaped quote (escapes are kept verbatim, as in the source). -/
def takeJsonStr : Bool → Chars → Option Chars
  | _, [] => none
  | true, c :: cs => (takeJsonStr false cs).map (c :: ·)
  | false, c :: cs =>
    if c == '"' then some []
    else if c == '\\' then (takeJsonStr true cs).map (c :: ·)
    else (takeJsonStr false cs).map (c :: ·)

/-- window_backends.rs `extract_json_string`. -/
def extract_json_string (json key : Chars) : Option Chars :=
  let pattern := keyPattern key
  match findSub json pattern with
  | none => none
  | some ix =>
    let rest := trimStartChars (json.drop (ix + pattern.length))
    match rest with
    | '"' :: tail => takeJsonStr false tail
    | _ => none

/-- window_backends.rs `extract_json_hex_value` (delegates to the string
    extractor). -/
def extract_json_hex_value (json key : Chars) : Option Chars :=
  extract_json_string json key

/-- Length of the leading run of digit/minus characters (the `end` index the
    numeric extractors compute). -/
def numSpan (rest : Chars) : Nat :=
  match rest.findIdx? (fun c => !(c.isDigit || c == '-')) with
  | some i => i
  | none => rest.length

/-- window_backends.rs `extract_json_number`. -/
def extract_json_number (json key : Chars) : Option Nat :=
  match findSub json (keyPattern key) with
  | none => none
  | some ix =>
    let rest := trimStartChars (json.drop (ix + (keyPattern key).length))
    parseU32 (rest.take (numSpan rest))

/-- window_backends.rs `extract_json_bool` (a boolean-like i32 number). -/
def extract_json_bool (json key : Chars) : Option Int :=
  match findSub json (keyPattern key) with
  | none => none
  | some ix =>
    let rest := trimStartChars (json.drop (ix + (keyPattern key).length))
    parseI32 (rest.take (numSpan rest))

/-- window_backends.rs `extract_json_bool_field` (`true`/`false` literals). -/
def extract_json_bool_field (json key : Chars) : Option Bool :=
  match findSub json (keyPattern key) with
  | none => none
  | some ix =>
    let rest := trimStartChars (json.drop (ix + (keyPattern key).length))
    if leadsWith ("true".data) rest then some true
    else if leadsWith ("false".data) rest then some false
    else none

/-- Rust `str::split(',')`. -/
def splitOnComma : Chars → List Chars
  | [] => [[]]
  | c :: cs =>
    if c == ',' then [] :: splitOnComma cs
    else
      match splitOnComma cs with
      | [] => [[c]]
      | g :: gs => (c :: g) :: gs

/-- window_backends.rs `extract_json_position` (`[x, y]` as two i32s). -/
def extract_json_position (json key : Chars) : Option (Int × Int) :=
  match findSub json (keyPattern key) with
  | none => none
  | some ix =>
    let rest := trimStartChars (json.drop (ix + (keyPattern key).length))
    match rest with
    | '[' :: _ =>
      match rest.findIdx? (fun c => c == ']') with
      | none => none
      | some e =>
        let content := (rest.drop 1).take (e - 1)
        match splitOnComma content with
        | p0 :: p1 :: _ =>
          match parseI32 (trimChars p0), parseI32 (trimChars p1) with
          | some x, some y => some (x, y)
          | _, _ => none
        | _ => none
    | _ => none

/-- window_backends.rs `extract_json_size` (`[w, h]` as two u32s). -/
def extract_json_size (json key : Chars) : Option (Nat × Nat) :=
  match findSub json (keyPattern key) with
  | none => none
  | some ix =>
    let rest := trimStartChars (json.drop (ix + (keyPattern key).length))
    match rest with
    | '[' :: _ =>
      match rest.findIdx? (fun c => c == ']') with
      | none => none
      | some e =>
        let content := (rest.drop 1).take (e - 1)
        match splitOnComma content with
        | p0 :: p1 :: _ =>
          match parseU32 (trimChars p0), parseU32 (trimChars p1) with
          | some w, some h => some (w, h)
          | _, _ => none
        | _ => none
    | _ => none

/-- window.rs `WindowInfo`. -/
structure WindowInfo where
  id : Nat
  pid : Nat
  app_name : Chars
  title : Chars
  x : Int
  y : Int
  z : Int
  width : Nat
  height : Nat
  is_minimized : Bool
  is_maximized : Bool
  is_focused : Bool
deriving DecidableEq

/-- window.rs `WindowCaptureError`. -/
inductive WindowCaptureError where
  | enumerationFailed : String → WindowCaptureError
  | windowNotFound : WindowCaptureError
  | captureFailed : String → WindowCaptureError
  | conversionFailed : String → WindowCaptureError
  | windowMinimized : WindowCaptureError
  | infoFailed : String → WindowCaptureError
deriving DecidableEq

/-- window_backends.rs `parse_hyprland_client_object`. -/
def parse_hyprland_client_object (obj : Chars) : Option WindowInfo :=
  match extract_json_hex_value obj ("address".data) with
  | none => none
  | some address =>
    let id := (parseHexU32 (stripHexMarks address)).getD 0
    let pid := (extract_json_number obj ("pid".data)).getD 0
    let title := (extract_json_string obj ("title".data)).getD []
    let cls := (extract_json_string obj ("class".data)).getD []
    let xy := (extract_json_position obj ("at".data)).getD (0, 0)
    let wh := (extract_json_size obj ("size".data)).getD (0, 0)
    let is_focused :=
      ((extract_json_bool obj ("focusHistoryID".data)).map (fun v => v == 0)).getD false
    let is_minimized := (extract_json_bool_field obj ("hidden".data)).getD false
    let is_maximized := (extract_json_bool_field obj ("fullscreen".data)).getD false
    some { id := id, pid := pid, app_name := cls, title := title,
           x := xy.1, y := xy.2, z := 0, width := wh.1, height := wh.2,
           is_minimized := is_minimized, is_maximized := is_maximized,
           is_focused := is_focused }

/-- The character-by-character scan of `parse_hyprland_json`: brace depth,
    string state, escape state, and the growing slice of the current top-level
    object (`content[start..=i]`), yielding each top-level object substring. -/
def extractAux : Chars → Int → Bool → Bool → Chars → List Chars
  | [], _, _, _, _ => []
  | c :: cs, depth, inStr, esc, cur =>
    let cur1 := if 0 < depth then cur ++ [c] else cur
    if esc then extractAux cs depth inStr false cur1
    else if inStr && c == '\\' then extractAux cs depth inStr true cur1
    else if c == '"' then extractAux cs depth (!inStr) false cur1
    else if !inStr && c == '{' then
      (if depth == 0 then extractAux cs 1 inStr false [c]
       else extractAux cs (depth + 1) inStr false cur1)
    else if !inStr && c == '}' then
      (if depth == 1 then cur1 :: extractAux cs 0 inStr false cur1
       else extractAux cs (depth - 1) inStr false cur1)
    else extractAux cs depth inStr false cur1

/-- The balanced-object extractor of `parse_hyprland_json`: splits the content
    of a JSON array into its top-level `(braces)` object substrings. -/
def splitTopLevelObjects (content : Chars) : List Chars :=
  extractAux content 0 false false []

/-- window_backends.rs `parse_hyprland_json`. -/
def parse_hyprland_json (json_str : Chars) :
    Except WindowCaptureError (List WindowInfo) :=
  let trimmed := trimChars json_str
  if leadsWith ['['] trimmed && endsWithChar ']' trimmed then
    let content := (trimmed.drop 1).dropLast
    Except.ok ((splitTopLevelObjects content).filterMap parse_hyprland_client_object)
  else Except.error (.enumerationFailed "Invalid JSON from hyprctl")

instance exceptDecEq {ε α : Type} [DecidableEq ε] [DecidableEq α] :
    DecidableEq (Except ε α) := fun
  | .ok a, .ok b =>
    if h : a = b then isTrue (by rw [h]) else isFalse (by intro hh; cases hh; exact h rfl)
  | .ok _, .error _ => isFalse (by intro hh; cases hh)
  | .error _, .ok _ => isFalse (by intro hh; cases hh)
  | .error e, .error f =>
    if h : e = f then isTrue (by rw [h]) else isFalse (by intro hh; cases hh; exact h rfl)

/-- The literal Hyprland sample of end-to-end scenario 2 of the spec. -/
def hyprlandSample : String :=
  "[\x7b\"address\":\"0x12345678\",\"pid\":1234,\"class\":\"firefox\",\"title\":\"Mozilla Firefox\",\"at\":[100,200],\"size\":[800,600],\"hidden\":false,\"fullscreen\":false,\"focusHistoryID\":0\x7d]"

-- ===========================================================================
-- desktop.rs: session detection and backend selection
-- ===========================================================================

/-- desktop.rs `DisplayServer`. -/
inductive DisplayServer where
  | wayland
  | x11
  | unknown
deriving DecidableEq

/-- desktop.rs `DesktopEnvironment`. -/
inductive DesktopEnvironment where
  | gnome
  | kde
  | hyprland
  | sway
  | cinnamon
  | xfce
  | mate
  | other : Option String → DesktopEnvironment
deriving DecidableEq

/-- desktop.rs `WindowListBackend`. -/
inductive WindowListBackend where
  | hyprland
  | sway
  | gnomeWayland
  | kdeWayland
  | x11
  | xcap
deriving DecidableEq

/-- desktop.rs `DesktopSession::window_list_backend` (the backend selector);
    its match arms in source order. -/
def window_list_backend (de : DesktopEnvironment) (ds : DisplayServer) :
    WindowListBackend :=
  match de, ds with
  | .hyprland, .wayland => .hyprland
  | .sway, .wayland => .sway
  | .gnome, .wayland => .gnomeWayland
  | .kde, .wayland => .kdeWayland
  | _, .x11 => .x11
  | _, _ => .xcap

/-- Modelled from the spec: the BackendSelector mapping table of section 4.2,
    first match wins, with the generic fallback backend last. -/
def backendSpecTable (de : DesktopEnvironment) (ds : DisplayServer) :
    WindowListBackend :=
  if de = .hyprland ∧ ds = .wayland then .hyprland
  else if de = .sway ∧ ds = .wayland then .sway
  else if de = .gnome ∧ ds = .wayland then .gnomeWayland
  else if de = .kde ∧ ds = .wayland then .kdeWayland
  else if ds = .x11 then .x11
  else .xcap

/-- The process environment variables consumed by desktop.rs, plus the outcome
    of the `hyprctl version` liveness probe (`is_hyprland_running`). -/
structure EnvMap where
  xdg_session_type : Option String
  wayland_display : Option String
  display : Option String
  hyprland_instance_signature : Option String
  swaysock : Option String
  xdg_current_desktop : Option String
  desktop_session : Option String
  kde_full_session : Option String
  gnome_desktop_session_id : Option String
  hyprctl_version_ok : Bool

/-- desktop.rs `detect_display_server`. -/
def detect_display_server (env : EnvMap) : DisplayServer :=
  let step1 : Option DisplayServer :=
    match env.xdg_session_type with
    | some st =>
      if st.toLower == "wayland" then some .wayland
      else if st.toLower == "x11" then some .x11
      else none
    | none => none
  match step1 with
  | some ds => ds
  | none =>
    if env.wayland_display.isSome then .wayland
    else if env.display.isSome then .x11
    else .unknown

/-- One arm of the `XDG_CURRENT_DESKTOP` component match in
    `detect_desktop_environment`. -/
def matchDesktopComponent (component : String) : Option DesktopEnvironment :=
  if component == "gnome" || component == "unity" || component == "ubuntu" ||
     component == "pop" then some .gnome
  else if component == "kde" || component == "plasma" ||
     component == "kde-plasma" then some .kde
  else if component == "hyprland" then some .hyprland
  else if component == "sway" then some .sway
  else if component == "cinnamon" || component == "x-cinnamon" then some .cinnamon
  else if component == "xfce" || component == "xfce4" then some .xfce
  else if component == "mate" then some .mate
  else none

/-- The `for component in desktop_lower.split(':')` loop: first matching
    colon-separated token wins. -/
def firstComponentMatch : List String → Option DesktopEnvironment
  | [] => none
  | c :: cs =>
    match matchDesktopComponent c.trim with
    | some de => some de
    | none => firstComponentMatch cs

/-- Rust `str::contains(pattern)` on Lean strings. -/
def strContains (s pat : String) : Bool := containsSub s.data pat.data

/-- desktop.rs `detect_desktop_environment`, as a function of the environment
    (the `is_hyprland_running` probe outcome is part of `EnvMap`). -/
def detect_desktop_environment (display_server : DisplayServer) (env : EnvMap) :
    DesktopEnvironment :=
  if env.hyprland_instance_signature.isSome then .hyprland
  else if env.swaysock.isSome then .sway
  else
    let viaCurrent : Option DesktopEnvironment :=
      match env.xdg_current_desktop with
      | some cd =>
        match firstComponentMatch (cd.toLower.splitOn ":") with
        | some de => some de
        | none => if cd == "" then none else some (.other (some cd))
      | none => none
    match viaCurrent with
    | some de => de
    | none =>
      let viaSession : Option DesktopEnvironment :=
        match env.desktop_session with
        | some dsn =>
          let lower := dsn.toLower
          if strContains lower "gnome" then some .gnome
          else if strContains lower "plasma" || strContains lower "kde" then some .kde
          else if strContains lower "cinnamon" then some .cinnamon
          else if strContains lower "xfce" then some .xfce
          else if strContains lower "mate" then some .mate
          else none
        | none => none
      match viaSession with
      | some de => de
      | none =>
        if env.kde_full_session.isSome then .kde
        else if env.gnome_desktop_session_id.isSome then .gnome
        else if display_server = .wayland ∧ env.hyprctl_version_ok then .hyprland
        else .other none

/-- desktop.rs `DesktopSession::detect`, over the environment model. -/
def desktop_session_detect (env : EnvMap) : DisplayServer × DesktopEnvironment :=
  let ds := detect_display_server env
  (ds, detect_desktop_environment ds env)

-- ===========================================================================
-- editor/annotations.rs and app/state.rs: rectangle normalization
-- ===========================================================================

/-- gtk RGBA color (f32 components modelled as rationals). -/
structure RGBA where
  red : ℚ
  green : ℚ
  blue : ℚ
  alpha : ℚ
deriving DecidableEq

/-- editor/annotations.rs rectangle shape (f64 coordinates modelled as
    rationals; the operations used are exact). -/
structure RectShape where
  x : ℚ
  y : ℚ
  width : ℚ
  height : ℚ
  color : RGBA
  line_width : ℚ
  filled : Bool
deriving DecidableEq

/-- The rectangle constructor `new` (sets `filled := false`). -/
def RectShape.new (x y width height : ℚ) (color : RGBA) (line_width : ℚ) :
    RectShape :=
  { x := x, y := y, width := width, height := height, color := color,
    line_width := line_width, filled := false }

/-- editor/annotations.rs `from_corners`. -/
def RectShape.from_corners (x1 y1 x2 y2 : ℚ) (color : RGBA) (line_width : ℚ) :
    RectShape :=
  RectShape.new (min x1 x2) (min y1 y2) |x2 - x1| |y2 - y1| color line_width

/-- app/state.rs `Selection`. -/
structure Selection where
  start_x : ℚ
  start_y : ℚ
  end_x : ℚ
  end_y : ℚ
deriving DecidableEq

/-- Rust `f64 as i32`: truncation toward zero, saturating at the i32 range. -/
def f64AsI32 (q : ℚ) : Int :=
  let t : Int := if 0 ≤ q then ⌊q⌋ else ⌈q⌉
  if t < -(2 ^ 31) then -(2 ^ 31)
  else if t > 2 ^ 31 - 1 then 2 ^ 31 - 1
  else t

/-- app/state.rs `Selection::rectangle`: the normalized (x, y, w, h). -/
def Selection.rectangle (s : Selection) : Int × Int × Int × Int :=
  (f64AsI32 (min s.start_x s.end_x), f64AsI32 (min s.start_y s.end_y),
   f64AsI32 |s.start_x - s.end_x|, f64AsI32 |s.start_y - s.end_y|)

-- ===========================================================================
-- The effect model: subprocesses, the temp-file filesystem, xcap, decoding
-- ===========================================================================

/-- A subprocess invocation: program and argument list. -/
structure Cmd where
  prog : String
  args : List String
deriving DecidableEq

/-- The outcome the environment assigns to one subprocess invocation.
    `launched` models `Command::output()` returning `Ok`; `errMsg` is the io
    error text when it does not; `writesFile` tells whether the tool created
    its output file. -/
structure SpawnOutcome where
  launched : Bool
  success : Bool
  stdout : String
  stderr : String
  errMsg : String
  writesFile : Bool

/-- A gdk Pixbuf, abstracted to its dimensions (i32 in gtk). -/
structure Pixbuf where
  width : Int
  height : Int
deriving DecidableEq

/-- An RGBA image from the xcap library, abstracted to its dimensions. -/
structure RgbaImage where
  width : Nat
  height : Nat
deriving DecidableEq

/-- One window as reported by the xcap library: each accessor is fallible,
    and `capture_image` may fail. -/
structure XcapWindow where
  id : Option Nat
  pid : Option Nat
  app_name : Option Chars
  title : Option Chars
  x : Option Int
  y : Option Int
  z : Option Int
  width : Option Nat
  height : Option Nat
  is_minimized : Option Bool
  is_maximized : Option Bool
  is_focused : Option Bool
  capture_image : Except String RgbaImage

/-- The external world: the process id (used in temp-file names), the
    subprocess oracle, the PNG decoder, and the xcap window enumeration. -/
structure World where
  pid : Nat
  spawn : Cmd → SpawnOutcome
  decode : String → Option Pixbuf
  xcap_windows : Except String (List XcapWindow)

/-- The filesystem, reduced to the set of existing file paths. -/
abbrev FS := List String

def addFile (fs : FS) (p : String) : FS := if p ∈ fs then fs else p :: fs

def removeFile (fs : FS) (p : String) : FS := fs.filter (fun q => q != p)

/-- Spawn a command whose side effect may create the file at `path`. -/
def spawnFileCmd (w : World) (fs : FS) (c : Cmd) (path : String) :
    SpawnOutcome × FS :=
  let o := w.spawn c
  (o, if o.launched && o.writesFile then addFile fs path else fs)

/-- window_backends.rs `load_pixbuf_from_file`: decoding the PNG at `path`
    (fails when the file does not exist or does not decode). -/
def load_pixbuf_from_file (w : World) (fs : FS) (path : String) :
    Except WindowCaptureError Pixbuf :=
  if path ∈ fs then
    match w.decode path with
    | some p => .ok p
    | none => .error (.conversionFailed "Failed to load image: decode error")
  else .error (.conversionFailed "Failed to load image: missing file")

/-- window.rs `WindowCaptureResult`. -/
structure WindowCaptureResult where
  pixbuf : Pixbuf
  window_info : WindowInfo
deriving DecidableEq

/-- Result, subprocess trace and final filesystem of a window capture. -/
structure CapOut where
  res : Except WindowCaptureError WindowCaptureResult
  trace : List Cmd
  fs : FS

/-- Result and subprocess trace of a window listing. -/
structure ListOut where
  res : Except WindowCaptureError (List WindowInfo)
  trace : List Cmd

/-- The `/tmp/screenshot_gnome_PID.png` temp path of the window captures. -/
def tempPath (w : World) : String :=
  "/tmp/screenshot_gnome_" ++ toString w.pid ++ ".png"

/-- The `x,y WxH` geometry string passed to grim. -/
def geometryStr (wi : WindowInfo) : String :=
  toString wi.x ++ "," ++ toString wi.y ++ " " ++
    toString wi.width ++ "x" ++ toString wi.height

-- ===========================================================================
-- window_backends.rs: the xcap (generic) backend
-- ===========================================================================

/-- window_backends.rs `list_windows_xcap`. -/
def list_windows_xcap (w : World) :
    Except WindowCaptureError (List WindowInfo) :=
  match w.xcap_windows with
  | .error e => .error (.enumerationFailed ("xcap failed to list windows: " ++ e))
  | .ok ws =>
    .ok (ws.map (fun win =>
      { id := win.id.getD 0, pid := win.pid.getD 0,
        app_name := win.app_name.getD [], title := win.title.getD [],
        x := win.x.getD 0, y := win.y.getD 0, z := win.z.getD 0,
        width := win.width.getD 0, height := win.height.getD 0,
        is_minimized := win.is_minimized.getD false,
        is_maximized := win.is_maximized.getD false,
        is_focused := win.is_focused.getD false }))

/-- The three-stage window matching of `capture_window_xcap`: by id, then by
    title and app name, then by position and size. -/
def xcapFindMatch (ws : List XcapWindow) (wi : WindowInfo) : Option XcapWindow :=
  match ws.find? (fun xw => xw.id == some wi.id) with
  | some xw => some xw
  | none =>
    match ws.find? (fun xw =>
        xw.title == some wi.title && xw.app_name == some wi.app_name) with
    | some xw => some xw
    | none =>
      ws.find? (fun xw =>
        xw.x == some wi.x && xw.y == some wi.y &&
        xw.width == some wi.width && xw.height == some wi.height)

/-- window_backends.rs `rgba_image_to_pixbuf` (always succeeds; gtk receives
    the image dimensions as i32). -/
def rgba_image_to_pixbuf (img : RgbaImage) : Pixbuf :=
  ⟨u32AsI32 img.width, u32AsI32 img.height⟩

/-- window_backends.rs `capture_window_xcap`: re-enumerates, matches, refuses
    minimized windows, then grabs in-process (no subprocess is spawned). -/
def capture_window_xcap (w : World) (wi : WindowInfo) :
    Except WindowCaptureError WindowCaptureResult :=
  match w.xcap_windows with
  | .error e => .error (.enumerationFailed ("xcap failed to list windows: " ++ e))
  | .ok ws =>
    match xcapFindMatch ws wi with
    | none => .error .windowNotFound
    | some win =>
      if win.is_minimized.getD false then .error .windowMinimized
      else
        match win.capture_image with
        | .error e => .error (.captureFailed e)
        | .ok img => .ok ⟨rgba_image_to_pixbuf img, wi⟩

/-- `capture_window_xcap` lifted to the traced form (it spawns nothing and
    touches no temp file). -/
def xcapAsCapOut (w : World) (fs : FS) (trace : List Cmd) (wi : WindowInfo) :
    CapOut :=
  ⟨capture_window_xcap w wi, trace, fs⟩

-- ===========================================================================
-- window_backends.rs: Hyprland and Sway backends
-- ===========================================================================

/-- window_backends.rs `list_windows_hyprland`. -/
def list_windows_hyprland (w : World) : ListOut :=
  let c : Cmd := ⟨"hyprctl", ["clients", "-j"]⟩
  let o := w.spawn c
  if o.launched = false then
    ⟨.error (.enumerationFailed ("Failed to run hyprctl: " ++ o.errMsg)), [c]⟩
  else if o.success = false then
    ⟨.error (.enumerationFailed "hyprctl returned non-zero exit code"), [c]⟩
  else ⟨parse_hyprland_json o.stdout.data, [c]⟩

/-- window_backends.rs `capture_window_hyprland`. -/
def capture_window_hyprland (w : World) (fs : FS) (wi : WindowInfo) : CapOut :=
  let temp := tempPath w
  let c : Cmd := ⟨"grim", ["-g", geometryStr wi, temp]⟩
  let (o, fs1) := spawnFileCmd w fs c temp
  if o.launched = false then
    ⟨.error (.captureFailed ("Failed to run grim: " ++ o.errMsg)), [c], fs1⟩
  else if o.success = false then
    ⟨.error (.captureFailed ("grim failed: " ++ o.stderr)), [c], fs1⟩
  else
    match load_pixbuf_from_file w fs1 temp with
    | .error e => ⟨.error e, [c], fs1⟩
    | .ok pb => ⟨.ok ⟨pb, wi⟩, [c], removeFile fs1 temp⟩

/-- window_backends.rs `find_object_start`: backward scan for the opening
    brace of the object containing `pos` (not string-aware, as in source). -/
def findObjStartAux (json : Chars) : Nat → Int → Option Nat
  | 0, _ => none
  | i + 1, depth =>
    match json.get? i with
    | none => none
    | some c =>
      if c == '}' then findObjStartAux json i (depth + 1)
      else if c == '{' then
        (if depth == 0 then some i else findObjStartAux json i (depth - 1))
      else findObjStartAux json i depth

def find_object_start (json : Chars) (pos : Nat) : Option Nat :=
  findObjStartAux json pos 0

/-- window_backends.rs `find_object_end`: forward, string-aware scan for the
    matching closing brace from `start`. -/
def findObjEndAux : Chars → Nat → Int → Bool → Bool → Option Nat
  | [], _, _, _, _ => none
  | c :: cs, i, depth, inStr, esc =>
    if esc then findObjEndAux cs (i + 1) depth inStr false
    else if inStr && c == '\\' then findObjEndAux cs (i + 1) depth inStr true
    else if c == '"' then findObjEndAux cs (i + 1) depth (!inStr) false
    else if !inStr && c == '{' then findObjEndAux cs (i + 1) (depth + 1) inStr false
    else if !inStr && c == '}' then
      (if depth == 1 then some i else findObjEndAux cs (i + 1) (depth - 1) inStr false)
    else findObjEndAux cs (i + 1) depth inStr false

def find_object_end (json : Chars) (start : Nat) : Option Nat :=
  findObjEndAux (json.drop start) start 0 false false

/-- Slice `json[a..=b]`. -/
def sliceIncl (json : Chars) (a b : Nat) : Chars := (json.drop a).take (b + 1 - a)

/-- window_backends.rs `parse_sway_rect` (the slice is empty rather than a
    panic when the first closing brace precedes the first opening one). -/
def parse_sway_rect (obj : Chars) : Option (Int × Int × Nat × Nat) :=
  match findSub obj ("\"rect\":".data) with
  | none => none
  | some rs =>
    let rest := obj.drop rs
    match rest.findIdx? (fun c => c == '{') with
    | none => none
    | some bs =>
      match rest.findIdx? (fun c => c == '}') with
      | none => none
      | some be =>
        let rect_obj := sliceIncl rest bs be
        let x := u32AsI32 ((extract_json_number rect_obj ("x".data)).getD 0)
        let y := u32AsI32 ((extract_json_number rect_obj ("y".data)).getD 0)
        let width := (extract_json_number rect_obj ("width".data)).getD 0
        let height := (extract_json_number rect_obj ("height".data)).getD 0
        some (x, y, width, height)

/-- window_backends.rs `parse_sway_node`. -/
def parse_sway_node (obj : Chars) : Option WindowInfo :=
  match extract_json_number obj ("id".data) with
  | none => none
  | some id =>
    let pid := (extract_json_number obj ("pid".data)).getD 0
    let title := (extract_json_string obj ("name".data)).getD []
    let app_name :=
      match extract_json_string obj ("app_id".data) with
      | some a => a
      | none => (extract_json_string obj ("class".data)).getD []
    let r := (parse_sway_rect obj).getD (0, 0, 0, 0)
    let is_focused := (extract_json_bool_field obj ("focused".data)).getD false
    let is_maximized :=
      ((extract_json_bool_field obj ("fullscreen_mode".data)).map
        (fun _ => true)).getD false
    some { id := id, pid := pid, app_name := app_name, title := title,
           x := r.1, y := r.2.1, z := 0, width := r.2.2.1, height := r.2.2.2,
           is_minimized := false, is_maximized := is_maximized,
           is_focused := is_focused }

/-- window_backends.rs `extract_sway_windows`: the `"pid":` occurrence walk.
    The Rust loop's progress is not structurally evident (the search position
    can move backward on adversarial input), so the recursion is fuelled; every
    window ever pushed still comes from `parse_sway_node`. -/
def extractSwayWindowsAux : Nat → Chars → Nat → List WindowInfo → List WindowInfo
  | 0, _, _, ws => ws
  | fuel + 1, json, searchPos, ws =>
    match findSub (json.drop searchPos) (keyPattern ("pid".data)) with
    | none => ws
    | some start =>
      let absPos := searchPos + start
      match find_object_start json absPos with
      | some objStart =>
        match find_object_end json objStart with
        | some objEnd =>
          let objStr := sliceIncl json objStart objEnd
          let ws' :=
            if containsSub objStr ("\"app_id\"".data) ||
               containsSub objStr ("\"window_properties\"".data) then
              match parse_sway_node objStr with
              | some info =>
                if ws.any (fun a => a.id == info.id) then ws else ws ++ [info]
              | none => ws
            else ws
          extractSwayWindowsAux fuel json (objEnd + 1) ws'
        | none => extractSwayWindowsAux fuel json (absPos + 6) ws
      | none => extractSwayWindowsAux fuel json (absPos + 6) ws

/-- window_backends.rs `parse_sway_tree`. -/
def parse_sway_tree (json : Chars) : Except WindowCaptureError (List WindowInfo) :=
  .ok (extractSwayWindowsAux (json.length + 1) json 0 [])

/-- window_backends.rs `list_windows_sway`. -/
def list_windows_sway (w : World) : ListOut :=
  let c : Cmd := ⟨"swaymsg", ["-t", "get_tree"]⟩
  let o := w.spawn c
  if o.launched = false then
    ⟨.error (.enumerationFailed ("Failed to run swaymsg: " ++ o.errMsg)), [c]⟩
  else if o.success = false then
    ⟨.error (.enumerationFailed "swaymsg returned non-zero exit code"), [c]⟩
  else ⟨parse_sway_tree o.stdout.data, [c]⟩

/-- window_backends.rs `capture_window_sway` (same tool and flow as the
    Hyprland capture). -/
def capture_window_sway (w : World) (fs : FS) (wi : WindowInfo) : CapOut :=
  let temp := tempPath w
  let c : Cmd := ⟨"grim", ["-g", geometryStr wi, temp]⟩
  let (o, fs1) := spawnFileCmd w fs c temp
  if o.launched = false then
    ⟨.error (.captureFailed ("Failed to run grim: " ++ o.errMsg)), [c], fs1⟩
  else if o.success = false then
    ⟨.error (.captureFailed ("grim failed: " ++ o.stderr)), [c], fs1⟩
  else
    match load_pixbuf_from_file w fs1 temp with
    | .error e => ⟨.error e, [c], fs1⟩
    | .ok pb => ⟨.ok ⟨pb, wi⟩, [c], removeFile fs1 temp⟩

-- ===========================================================================
-- window_backends.rs: GNOME Wayland backend
-- ===========================================================================

/-- A single-quote character (GVariant strings are single-quoted). -/
def squote : Char := Char.ofNat 39

/-- The pattern a GVariant key lookup searches for: quote, key, quote, colon. -/
def gvariantKey (key : Chars) : Chars := squote :: (key ++ [squote, ':'])

/-- window_backends.rs `extract_gvariant_string`. -/
def extract_gvariant_string (text pre : Chars) : Option Chars :=
  match findSub text pre with
  | none => none
  | some ix =>
    let rest := trimStartChars (text.drop (ix + pre.length))
    let quoteOk : Bool :=
      match rest with
      | '<' :: _ => (rest.findIdx? (fun c => c == squote)).isSome
      | c :: _ => c == squote
      | [] => false
    if quoteOk then
      match rest.findIdx? (fun c => c == squote) with
      | none => none
      | some q =>
        let content := rest.drop (q + 1)
        match content.findIdx? (fun c => c == squote) with
        | none => none
        | some e => some (content.take e)
    else none

/-- Rust `str::split_whitespace`. -/
def splitWsAux : Chars → Chars → List Chars
  | [], cur => if cur.isEmpty then [] else [cur.reverse]
  | c :: cs, cur =>
    if isWs c then
      (if cur.isEmpty then splitWsAux cs [] else cur.reverse :: splitWsAux cs [])
    else splitWsAux cs (c :: cur)

def splitWs (s : Chars) : List Chars := splitWsAux s []

/-- window_backends.rs `extract_gvariant_number` (looks for the pid key). -/
def extract_gvariant_number (text : Chars) : Option Nat :=
  match findSub text (gvariantKey ("pid".data)) with
  | none => none
  | some ix =>
    let rest := trimStartChars (text.drop (ix + 6))
    let number_part :=
      match rest with
      | '<' :: r => r
      | _ => rest
    match (splitWs number_part).find? (fun t => t.all (·.isDigit)) with
    | none => none
    | some tok => parseU32 tok

/-- window_backends.rs `extract_gvariant_dimension`. -/
def extract_gvariant_dimension (text : Chars) : Option Nat :=
  match text.findIdx? (fun c => c == ':') with
  | none => none
  | some cp =>
    let rest := trimStartChars (text.drop (cp + 1))
    let e :=
      match rest.findIdx? (fun c => !c.isDigit) with
      | some i => i
      | none => rest.length
    if e > 0 then parseU32 (rest.take e) else none

/-- window_backends.rs `extract_gnome_dimensions`. -/
def extract_gnome_dimensions (text : Chars) : Option (Nat × Nat) :=
  let width :=
    match findSub text (gvariantKey ("width".data)) with
    | some p => (extract_gvariant_dimension (text.drop p)).getD 0
    | none => 0
  let height :=
    match findSub text (gvariantKey ("height".data)) with
    | some p => (extract_gvariant_dimension (text.drop p)).getD 0
    | none => 0
  if width > 0 && height > 0 then some (width, height) else none

/-- The `'wm-class':` occurrence loop of `parse_gnome_introspect_output`,
    fuelled (each step advances the search position). -/
def gnomeIntrospectLoop : Nat → Chars → Nat → Nat → List WindowInfo → List WindowInfo
  | 0, _, _, _, acc => acc
  | fuel + 1, output, searchPos, windowId, acc =>
    match findSub (output.drop searchPos) (gvariantKey ("wm-class".data)) with
    | none => acc
    | some start =>
      let absPos := searchPos + start
      let wmClass :=
        (extract_gvariant_string (output.drop absPos)
          (gvariantKey ("wm-class".data))).getD []
      let title :=
        match findSub (output.drop searchPos) (gvariantKey ("title".data)) with
        | some tp =>
          (extract_gvariant_string (output.drop (searchPos + tp))
            (gvariantKey ("title".data))).getD []
        | none => []
      let pid :=
        match findSub (output.drop searchPos) (gvariantKey ("pid".data)) with
        | some pp => (extract_gvariant_number (output.drop (searchPos + pp))).getD 0
        | none => 0
      let wh := (extract_gnome_dimensions (output.drop searchPos)).getD (0, 0)
      let info : WindowInfo :=
        { id := windowId, pid := pid, app_name := wmClass, title := title,
          x := 0, y := 0, z := 0, width := wh.1, height := wh.2,
          is_minimized := false, is_maximized := false, is_focused := false }
      gnomeIntrospectLoop fuel output (absPos + 10) (windowId + 1) (acc ++ [info])

/-- window_backends.rs `parse_gnome_introspect_output` (falls back to xcap on
    an empty result). -/
def parse_gnome_introspect_output (w : World) (output : Chars) :
    Except WindowCaptureError (List WindowInfo) :=
  let windows := gnomeIntrospectLoop (output.length + 1) output 0 1 []
  if windows.isEmpty then list_windows_xcap w else .ok windows

/-- window_backends.rs `list_windows_gnome_wayland`. -/
def list_windows_gnome_wayland (w : World) : ListOut :=
  let c : Cmd := ⟨"gdbus",
    ["call", "--session", "--dest", "org.gnome.Shell.Introspect",
     "--object-path", "/org/gnome/Shell/Introspect",
     "--method", "org.gnome.Shell.Introspect.GetWindows"]⟩
  let o := w.spawn c
  if o.launched && o.success then
    ⟨parse_gnome_introspect_output w o.stdout.data, [c]⟩
  else ⟨list_windows_xcap w, [c]⟩

/-- window_backends.rs `crop_pixbuf`. -/
def crop_pixbuf (p : Pixbuf) (x y width height : Int) : Option Pixbuf :=
  let sw := p.width
  let sh := p.height
  let x := min (max x 0) (sw - 1)
  let y := min (max y 0) (sh - 1)
  let width := min width (sw - x)
  let height := min height (sh - y)
  if width ≤ 0 ∨ height ≤ 0 then none
  else some ⟨width, height⟩

/-- Method 3 of `capture_window_gnome_wayland`: full-screen gnome-screenshot
    then an in-memory crop, then the final xcap fallback. -/
def gnomeCapMethod3 (w : World) (fs : FS) (trace : List Cmd) (wi : WindowInfo)
    (temp : String) : CapOut :=
  let c : Cmd := ⟨"gnome-screenshot", ["-f", temp]⟩
  let (o, fs1) := spawnFileCmd w fs c temp
  let trace1 := trace ++ [c]
  if o.launched && o.success then
    match load_pixbuf_from_file w fs1 temp with
    | .ok full =>
      let fs2 := removeFile fs1 temp
      match crop_pixbuf full wi.x wi.y (u32AsI32 wi.width) (u32AsI32 wi.height) with
      | some cropped => ⟨.ok ⟨cropped, wi⟩, trace1, fs2⟩
      | none => xcapAsCapOut w fs2 trace1 wi
    | .error _ => xcapAsCapOut w fs1 trace1 wi
  else xcapAsCapOut w fs1 trace1 wi

/-- Method 2 of `capture_window_gnome_wayland`: grim on the window geometry. -/
def gnomeCapMethod2 (w : World) (fs : FS) (trace : List Cmd) (wi : WindowInfo)
    (temp : String) : CapOut :=
  let c : Cmd := ⟨"grim", ["-g", geometryStr wi, temp]⟩
  let (o, fs1) := spawnFileCmd w fs c temp
  let trace1 := trace ++ [c]
  if o.launched && o.success then
    match load_pixbuf_from_file w fs1 temp with
    | .ok pb => ⟨.ok ⟨pb, wi⟩, trace1, removeFile fs1 temp⟩
    | .error _ => gnomeCapMethod3 w fs1 trace1 wi temp
  else gnomeCapMethod3 w fs1 trace1 wi temp

/-- window_backends.rs `capture_window_gnome_wayland`: the ScreenshotWindow
    D-Bus portal, then grim, then gnome-screenshot with crop, then xcap. -/
def capture_window_gnome_wayland (w : World) (fs : FS) (wi : WindowInfo) : CapOut :=
  let temp := tempPath w
  let c : Cmd := ⟨"gdbus",
    ["call", "--session", "--dest", "org.gnome.Shell.Screenshot",
     "--object-path", "/org/gnome/Shell/Screenshot",
     "--method", "org.gnome.Shell.Screenshot.ScreenshotWindow",
     "true", "true", temp]⟩
  let (o, fs1) := spawnFileCmd w fs c temp
  if o.launched && o.success then
    match load_pixbuf_from_file w fs1 temp with
    | .ok pb => ⟨.ok ⟨pb, wi⟩, [c], removeFile fs1 temp⟩
    | .error _ => gnomeCapMethod2 w fs1 [c] wi temp
  else gnomeCapMethod2 w fs1 [c] wi temp

-- ===========================================================================
-- window_backends.rs: KDE Wayland backend
-- ===========================================================================

/-- Rust `str::lines`. -/
def strLines (s : String) : List String :=
  let parts := s.splitOn "\n"
  let parts := if parts.getLast? == some "" then parts.dropLast else parts
  parts.map (fun l => if l.endsWith "\r" then l.dropRight 1 else l)

/-- One line of `parse_kdotool_output`: a numeric window id triggers a
    `kdotool getwindowname` subprocess for the title. -/
def kdotoolLine (w : World) (line : String) : Option WindowInfo × List Cmd :=
  match parseU32 (trimChars line.data) with
  | none => (none, [])
  | some id =>
    let c : Cmd := ⟨"kdotool", ["getwindowname", toString id]⟩
    let o := w.spawn c
    let title := if o.launched && o.success then trimChars o.stdout.data else []
    (some { id := id, pid := 0, app_name := [], title := title,
            x := 0, y := 0, z := 0, width := 0, height := 0,
            is_minimized := false, is_maximized := false, is_focused := false },
     [c])

def kdotoolLoop (w : World) : List String → List WindowInfo × List Cmd
  | [] => ([], [])
  | l :: ls =>
    let r := kdotoolLine w l
    let rest := kdotoolLoop w ls
    (match r.1 with
     | some i => i :: rest.1
     | none => rest.1,
     r.2 ++ rest.2)

/-- window_backends.rs `parse_kdotool_output` (falls back to xcap on an empty
    result). -/
def parse_kdotool_output (w : World) (output : String) :
    Except WindowCaptureError (List WindowInfo) × List Cmd :=
  let r := kdotoolLoop w (strLines output)
  if r.1.isEmpty then (list_windows_xcap w, r.2) else (.ok r.1, r.2)

/-- window_backends.rs `parse_kde_dbus_output` (a placeholder: always falls
    back to xcap). -/
def parse_kde_dbus_output (w : World) (_output : String) :
    Except WindowCaptureError (List WindowInfo) :=
  list_windows_xcap w

/-- window_backends.rs `list_windows_kde_wayland`: both the KWin D-Bus query
    and the kdotool search are spawned; kdotool's output is preferred. -/
def list_windows_kde_wayland (w : World) : ListOut :=
  let cDbus : Cmd := ⟨"gdbus",
    ["call", "--session", "--dest", "org.kde.KWin", "--object-path", "/KWin",
     "--method", "org.kde.KWin.queryWindowInfo"]⟩
  let oDbus := w.spawn cDbus
  let cK : Cmd := ⟨"kdotool", ["search", "--name", ""]⟩
  let oK := w.spawn cK
  if oK.launched && oK.success then
    let r := parse_kdotool_output w oK.stdout
    ⟨r.1, [cDbus, cK] ++ r.2⟩
  else if oDbus.launched && oDbus.success then
    ⟨parse_kde_dbus_output w oDbus.stdout, [cDbus, cK]⟩
  else ⟨list_windows_xcap w, [cDbus, cK]⟩

/-- Method 3 of `capture_window_kde_wayland`: grim, then the xcap fallback. -/
def kdeCapGrim (w : World) (fs : FS) (trace : List Cmd) (wi : WindowInfo)
    (temp : String) : CapOut :=
  let c : Cmd := ⟨"grim", ["-g", geometryStr wi, temp]⟩
  let (o, fs1) := spawnFileCmd w fs c temp
  let trace1 := trace ++ [c]
  if o.launched && o.success then
    match load_pixbuf_from_file w fs1 temp with
    | .ok pb => ⟨.ok ⟨pb, wi⟩, trace1, removeFile fs1 temp⟩
    | .error _ => xcapAsCapOut w fs1 trace1 wi
  else xcapAsCapOut w fs1 trace1 wi

/-- window_backends.rs `capture_window_kde_wayland`: a region-mode spectacle
    whose result is discarded, then active-window spectacle, then grim, then
    xcap. -/
def capture_window_kde_wayland (w : World) (fs : FS) (wi : WindowInfo) : CapOut :=
  let temp := tempPath w
  let cR : Cmd := ⟨"spectacle", ["-r", "-b", "-n", "-o", temp]⟩
  let rR := spawnFileCmd w fs cR temp
  let fs0 := rR.2
  let cA : Cmd := ⟨"spectacle", ["-a", "-b", "-n", "-o", temp]⟩
  let (oA, fs1) := spawnFileCmd w fs0 cA temp
  if oA.launched && oA.success then
    match load_pixbuf_from_file w fs1 temp with
    | .ok pb => ⟨.ok ⟨pb, wi⟩, [cR, cA], removeFile fs1 temp⟩
    | .error _ => kdeCapGrim w fs1 [cR, cA] wi temp
  else kdeCapGrim w fs1 [cR, cA] wi temp

-- ===========================================================================
-- window_backends.rs / window.rs: dispatch and the capturable filter
-- ===========================================================================

/-- window_backends.rs `list_windows_with_backend`. -/
def list_windows_with_backend (b : WindowListBackend) (w : World) : ListOut :=
  match b with
  | .hyprland => list_windows_hyprland w
  | .sway => list_windows_sway w
  | .gnomeWayland => list_windows_gnome_wayland w
  | .kdeWayland => list_windows_kde_wayland w
  | .x11 => ⟨list_windows_xcap w, []⟩
  | .xcap => ⟨list_windows_xcap w, []⟩

/-- window_backends.rs `capture_window_with_backend`. -/
def capture_window_with_backend (b : WindowListBackend) (w : World) (fs : FS)
    (wi : WindowInfo) : CapOut :=
  match b with
  | .hyprland => capture_window_hyprland w fs wi
  | .sway => capture_window_sway w fs wi
  | .gnomeWayland => capture_window_gnome_wayland w fs wi
  | .kdeWayland => capture_window_kde_wayland w fs wi
  | .x11 => xcapAsCapOut w fs [] wi
  | .xcap => xcapAsCapOut w fs [] wi

/-- The minimized-window filter of window.rs `list_capturable_windows`. -/
def list_capturable_filter (ws : List WindowInfo) : List WindowInfo :=
  ws.filter (fun wi => !wi.is_minimized)

-- ===========================================================================
-- screen.rs: Wayland screen capture
-- ===========================================================================

/-- screen.rs `MonitorInfo` (f32 fields modelled as rationals). -/
structure MonitorInfo where
  id : Nat
  name : String
  x : Int
  y : Int
  width : Nat
  height : Nat
  is_primary : Bool
  scale_factor : ℚ
  rotation : ℚ
  frequency : ℚ
  is_builtin : Bool
deriving DecidableEq

/-- screen.rs `MonitorInfo::default_wayland`. -/
def MonitorInfo.default_wayland : MonitorInfo :=
  { id := 0, name := "Wayland Screen", x := 0, y := 0, width := 1920,
    height := 1080, is_primary := true, scale_factor := 1, rotation := 0,
    frequency := 60, is_builtin := false }

/-- screen.rs `CaptureResult`. -/
structure CaptureResult where
  pixbuf : Pixbuf
  monitor_info : MonitorInfo
deriving DecidableEq

/-- Result, subprocess trace and final filesystem of a screen capture
    (screen.rs uses plain String errors). -/
structure ScreenCapOut where
  res : Except String CaptureResult
  trace : List Cmd
  fs : FS

/-- The `/tmp/screenshot_gnome_screen_PID.png` temp path of screen capture. -/
def screenTempPath (w : World) : String :=
  "/tmp/screenshot_gnome_screen_" ++ toString w.pid ++ ".png"

/-- screen.rs `load_pixbuf_from_file` (String errors). -/
def load_pixbuf_screen (w : World) (fs : FS) (path : String) :
    Except String Pixbuf :=
  if path ∈ fs then
    match w.decode path with
    | some p => .ok p
    | none => .error "Failed to load screenshot image: decode error"
  else .error "Failed to load screenshot image: missing file"

/-- screen.rs `capture_with_grim`. -/
def capture_with_grim (w : World) (fs : FS) (temp : String) : ScreenCapOut :=
  let c : Cmd := ⟨"grim", [temp]⟩
  let (o, fs1) := spawnFileCmd w fs c temp
  if o.launched = false then
    ⟨.error ("Failed to run grim: " ++ o.errMsg ++ ". Is grim installed?"), [c], fs1⟩
  else if o.success = false then
    ⟨.error ("grim failed: " ++ o.stderr), [c], fs1⟩
  else
    match load_pixbuf_screen w fs1 temp with
    | .error e => ⟨.error e, [c], fs1⟩
    | .ok pb =>
      let mi := { MonitorInfo.default_wayland with
                    width := i32AsU32 pb.width, height := i32AsU32 pb.height }
      ⟨.ok ⟨pb, mi⟩, [c], removeFile fs1 temp⟩

/-- screen.rs `capture_with_gnome_screenshot`. -/
def capture_with_gnome_screenshot (w : World) (fs : FS) (temp : String) :
    ScreenCapOut :=
  let c : Cmd := ⟨"gnome-screenshot", ["-f", temp]⟩
  let (o, fs1) := spawnFileCmd w fs c temp
  if o.launched = false then
    ⟨.error ("Failed to run gnome-screenshot: " ++ o.errMsg ++
      ". Is gnome-screenshot installed?"), [c], fs1⟩
  else if o.success = false then
    ⟨.error ("gnome-screenshot failed: " ++ o.stderr), [c], fs1⟩
  else
    match load_pixbuf_screen w fs1 temp with
    | .error e => ⟨.error e, [c], fs1⟩
    | .ok pb =>
      let mi := { MonitorInfo.default_wayland with
                    width := i32AsU32 pb.width, height := i32AsU32 pb.height }
      ⟨.ok ⟨pb, mi⟩, [c], removeFile fs1 temp⟩

/-- screen.rs `capture_with_spectacle`. -/
def capture_with_spectacle (w : World) (fs : FS) (temp : String) : ScreenCapOut :=
  let c : Cmd := ⟨"spectacle", ["-b", "-n", "-f", "-o", temp]⟩
  let (o, fs1) := spawnFileCmd w fs c temp
  if o.launched = false then
    ⟨.error ("Failed to run spectacle: " ++ o.errMsg ++
      ". Is spectacle installed?"), [c], fs1⟩
  else if o.success = false then
    ⟨.error ("spectacle failed: " ++ o.stderr), [c], fs1⟩
  else
    match load_pixbuf_screen w fs1 temp with
    | .error e => ⟨.error e, [c], fs1⟩
    | .ok pb =>
      let mi := { MonitorInfo.default_wayland with
                    width := i32AsU32 pb.width, height := i32AsU32 pb.height }
      ⟨.ok ⟨pb, mi⟩, [c], removeFile fs1 temp⟩

/-- Rust `Result::or_else` over the traced screen-capture form: the second
    attempt runs only when the first failed, continuing from its filesystem. -/
def orElseScreen (r : ScreenCapOut) (w : World) (temp : String)
    (f : World → FS → String → ScreenCapOut) : ScreenCapOut :=
  match r.res with
  | .ok _ => r
  | .error _ =>
    let r2 := f w r.fs temp
    ⟨r2.res, r.trace ++ r2.trace, r2.fs⟩

/-- screen.rs `capture_screen_wayland`: per-environment tool chain, with the
    temp file removed when the overall result is an error. -/
def capture_screen_wayland (w : World) (fs : FS) (de : DesktopEnvironment) :
    ScreenCapOut :=
  let temp := screenTempPath w
  let r :=
    match de with
    | .hyprland | .sway => capture_with_grim w fs temp
    | .gnome =>
      orElseScreen (capture_with_gnome_screenshot w fs temp) w temp capture_with_grim
    | .kde =>
      orElseScreen (capture_with_spectacle w fs temp) w temp capture_with_grim
    | _ =>
      orElseScreen
        (orElseScreen (capture_with_grim w fs temp) w temp
          capture_with_gnome_screenshot)
        w temp capture_with_spectacle
  match r.res with
  | .error e => ⟨.error e, r.trace, removeFile r.fs temp⟩
  | .ok v => ⟨.ok v, r.trace, r.fs⟩

-- ===========================================================================
-- Well-formed flat JSON arrays (for the balanced-object extractor claim)
-- ===========================================================================

/-- A flat JSON field value: a quoted string or an unquoted literal token
    (number, boolean, null). -/
inductive JVal where
  | jstr : Chars → JVal
  | jlit : Chars → JVal
deriving DecidableEq

/-- A string body is safe when it contains no quote and no backslash. -/
def safeStrB (s : Chars) : Bool :=
  s.all (fun c => !(c == '"') && !(c == '\\'))

/-- A literal token is safe when it contains no quote, backslash or brace. -/
def safeLitB (t : Chars) : Bool :=
  t.all (fun c => !(c == '"') && !(c == '\\') && !(c == '{') && !(c == '}'))

def valOkB : JVal → Bool
  | .jstr s => safeStrB s
  | .jlit t => safeLitB t

def fieldOkB (f : Chars × JVal) : Bool := safeStrB f.1 && valOkB f.2

def objOkB (o : List (Chars × JVal)) : Bool := o.all fieldOkB

def arrOkB (objs : List (List (Chars × JVal))) : Bool := objs.all objOkB

def serVal : JVal → Chars
  | .jstr s => '"' :: (s ++ ['"'])
  | .jlit t => t

/-- Serialize one field as `"key":value`. -/
def serField (f : Chars × JVal) : Chars :=
  '"' :: (f.1 ++ ('"' :: ':' :: serVal f.2))

/-- Comma-join. -/
def joinSep : List Chars → Chars
  | [] => []
  | [x] => x
  | x :: y :: ys => x ++ (',' :: joinSep (y :: ys))

def serObjBody (o : List (Chars × JVal)) : Chars := joinSep (o.map serField)

/-- Serialize one flat object. -/
def serObj (o : List (Chars × JVal)) : Chars :=
  '{' :: (serObjBody o ++ ['}'])

/-- Serialize the content of a JSON array of flat objects (what stands
    between the square brackets). -/
def serArrayContent (objs : List (List (Chars × JVal))) : Chars :=
  joinSep (objs.map serObj)

/-- The class of characters legal between the braces of a flat object: the
    scan tracks the string state, rejects escapes, and rejects braces outside
    strings; returns the final string state. -/
def bodyRun : Chars → Bool → Option Bool
  | [], inStr => some inStr
  | c :: cs, inStr =>
    if inStr && c == '\\' then none
    else if c == '"' then bodyRun cs (!inStr)
    else if !inStr && (c == '{' || c == '}') then none
    else bodyRun cs inStr

/-- String-aware brace-depth automaton (final depth). -/
def braceRun : Chars → Bool → Bool → Int → Int
  | [], _, _, d => d
  | c :: cs, inStr, esc, d =>
    if esc then braceRun cs inStr false d
    else if inStr && c == '\\' then braceRun cs inStr true d
    else if c == '"' then braceRun cs (!inStr) false d
    else if !inStr && c == '{' then braceRun cs inStr false (d + 1)
    else if !inStr && c == '}' then braceRun cs inStr false (d - 1)
    else braceRun cs inStr false d

/-- Balanced braces (string-aware). -/
def balancedBraces (s : Chars) : Bool := braceRun s false false 0 == 0

/-- A screen-capture outcome has removed its temp file whenever it reports
    success. -/
def CleansOnOk (o : ScreenCapOut) (temp : String) : Prop :=
  ∀ r, o.res = .ok r → temp ∉ o.fs

-- ===========================================================================
-- Concrete fixtures for witnesses and counterexamples
-- ===========================================================================

/-- An environment carrying both the Hyprland signature and a GNOME
    `XDG_CURRENT_DESKTOP`. -/
def envHyprGnome : EnvMap :=
  { xdg_session_type := some "wayland", wayland_display := some "wayland-1",
    display := some ":0", hyprland_instance_signature := some "abc123",
    swaysock := none, xdg_current_desktop := some "GNOME",
    desktop_session := some "gnome", kde_full_session := none,
    gnome_desktop_session_id := none, hyprctl_version_ok := false }

/-- Every subprocess launches and succeeds, writing its output file. -/
def spawnOk : SpawnOutcome :=
  { launched := true, success := true, stdout := "", stderr := "",
    errMsg := "", writesFile := true }

/-- Every subprocess fails to launch. -/
def spawnNoLaunch : SpawnOutcome :=
  { launched := false, success := false, stdout := "", stderr := "",
    errMsg := "No such file or directory", writesFile := false }

/-- Tools succeed and the written PNG decodes to an 800 by 600 pixbuf. -/
def wGrimOk : World :=
  { pid := 1, spawn := fun _ => spawnOk, decode := fun _ => some ⟨800, 600⟩,
    xcap_windows := .ok [] }

/-- Tools succeed and write their file, but the file never decodes. -/
def wBadDecode : World :=
  { pid := 1, spawn := fun _ => spawnOk, decode := fun _ => none,
    xcap_windows := .ok [] }

/-- Every subprocess fails to launch and xcap is also unavailable. -/
def wAllFail : World :=
  { pid := 1, spawn := fun _ => spawnNoLaunch, decode := fun _ => none,
    xcap_windows := .error "xcap unavailable" }

/-- A minimized window record. -/
def wiMin : WindowInfo :=
  { id := 7, pid := 1234, app_name := "firefox".data,
    title := "Mozilla Firefox".data, x := 10, y := 20, z := 0,
    width := 800, height := 600, is_minimized := true,
    is_maximized := false, is_focused := false }

/-- An xcap window that is currently minimized (id 5). -/
def xwMin : XcapWindow :=
  { id := some 5, pid := some 1, app_name := some [], title := some [],
    x := some 0, y := some 0, z := some 0, width := some 100,
    height := some 100, is_minimized := some true, is_maximized := some false,
    is_focused := some false, capture_image := .error "minimized" }

/-- A world whose xcap enumeration contains exactly the minimized window. -/
def wXcapMin : World :=
  { pid := 2, spawn := fun _ => spawnOk, decode := fun _ => none,
    xcap_windows := .ok [xwMin] }

/-- A WindowInfo whose id matches `xwMin`. -/
def wiTarget : WindowInfo :=
  { id := 5, pid := 1, app_name := [], title := [], x := 0, y := 0, z := 0,
    width := 100, height := 100, is_minimized := false,
    is_maximized := false, is_focused := false }

/-- A two-object flat array, used to instantiate the extractor round trip. -/
def sampleObjs : List (List (Chars × JVal)) :=
  [[("pid".data, .jlit ("42".data)), ("title".data, .jstr ("term".data))],
   [("pid".data, .jlit ("7".data))]]

/-- A small Sway tree fragment with one window node. -/
def swaySample : String :=
  "\x7b\"id\":3,\"pid\":42,\"app_id\":\"kitty\",\"name\":\"sh\",\"rect\":\x7b\"x\":5,\"y\":6,\"width\":700,\"height\":500\x7d,\"focused\":true\x7d"

/-- The WindowInfo the Sway parser extracts from `swaySample`. -/
def wiS : WindowInfo :=
  { id := 3, pid := 42, app_name := "kitty".data, title := "sh".data,
    x := 5, y := 6, z := 0, width := 700, height := 500,
    is_minimized := false, is_maximized := false, is_focused := true }

-- ===========================================================================
-- Theorems
-- ===========================================================================

set_option maxRecDepth 40000 in
/-- Claim C4: parsing the literal Hyprland sample input with the Hyprland
    JSON parser yields exactly one WindowInfo with id 305419896, pid 1234,
    app_name "firefox", title "Mozilla Firefox", x 100, y 200, width 800,
    height 600, not minimized, and focused. -/
theorem c4_hyprland_sample_parse :
    parse_hyprland_json hyprlandSample.data =
      Except.ok [{ id := 305419896, pid := 1234, app_name := "firefox".data,
                   title := "Mozilla Firefox".data, x := 100, y := 200, z := 0,
                   width := 800, height := 600, is_minimized := false,
                   is_maximized := false, is_focused := true }] := by
  decide

/-- Claim C5: the backend selector is a total deterministic function of the
    (environment, server) pair and agrees everywhere with the spec mapping
    table (wayland specials first, then X11, then the generic fallback). -/
theorem c5_backend_selector :
    ∀ de ds, window_list_backend de ds = backendSpecTable de ds := by
  intro de ds
  cases de <;> cases ds <;> rfl

/-- Claim C7: every JSON field extractor is total; on an object string that
    lacks the requested key each returns none. -/
theorem c7_extractors_total (json key : Chars)
    (h : containsSub json (keyPattern key) = false) :
    extract_json_string json key = none ∧
    extract_json_number json key = none ∧
    extract_json_bool json key = none ∧
    extract_json_bool_field json key = none ∧
    extract_json_position json key = none ∧
    extract_json_size json key = none := by
  have hf : findSub json (keyPattern key) = none := by
    cases hx : findSub json (keyPattern key) with
    | none => rfl
    | some ix => rw [containsSub, hx] at h; simp at h
  refine ⟨?_, ?_, ?_, ?_, ?_, ?_⟩ <;>
    simp [extract_json_string, extract_json_number, extract_json_bool,
      extract_json_bool_field, extract_json_position, extract_json_size, hf]

/-- Witness for C7 at a concrete object lacking the key. -/
theorem c7_extractors_total_witness :
    containsSub ("no such key".data) (keyPattern ("pid".data)) = false ∧
    extract_json_string ("no such key".data) ("pid".data) = none :=
  ⟨by decide, (c7_extractors_total ("no such key".data) ("pid".data) (by decide)).1⟩

/-- Claim C8: desktop-environment detection respects the priority order: the
    Hyprland instance signature wins over every lower-priority variable, and
    detection is total. -/
theorem c8_hyprland_signature_priority (ds : DisplayServer) (env : EnvMap)
    (h : env.hyprland_instance_signature.isSome = true) :
    detect_desktop_environment ds env = .hyprland ∧
    ∀ ds2 env2, ∃ de, detect_desktop_environment ds2 env2 = de := by
  constructor
  · unfold detect_desktop_environment
    simp [h]
  · intro ds2 env2; exact ⟨_, rfl⟩

/-- Witness for C8: the signature set and XDG_CURRENT_DESKTOP naming GNOME. -/
theorem c8_witness :
    envHyprGnome.hyprland_instance_signature.isSome = true ∧
    detect_desktop_environment .wayland envHyprGnome = .hyprland :=
  ⟨rfl, (c8_hyprland_signature_priority .wayland envHyprGnome rfl).1⟩

/-- Claim C9: rectangle construction from two corners normalizes so width and
    height are non-negative, and corners (50,80), (10,20) give the rectangle
    x 10, y 20, w 40, h 60 (both in the shape constructor and in the
    selection-to-rectangle conversion). -/
theorem c9_from_corners_normalizes :
    (∀ x1 y1 x2 y2 c lw, 0 ≤ (RectShape.from_corners x1 y1 x2 y2 c lw).width ∧
        0 ≤ (RectShape.from_corners x1 y1 x2 y2 c lw).height) ∧
    (∀ c lw, RectShape.from_corners 50 80 10 20 c lw =
        { x := 10, y := 20, width := 40, height := 60, color := c,
          line_width := lw, filled := false }) ∧
    Selection.rectangle ⟨50, 80, 10, 20⟩ = (10, 20, 40, 60) := by
  refine ⟨fun x1 y1 x2 y2 c lw => ⟨abs_nonneg _, abs_nonneg _⟩, fun c lw => ?_, ?_⟩
  · unfold RectShape.from_corners RectShape.new
    norm_num
  · unfold Selection.rectangle f64AsI32
    norm_num


/-- Amended C1: only the generic xcap backend refuses minimized windows. -/
theorem c1_xcap_minimized_refused (w : World) (fs : FS) (wi : WindowInfo)
    (ws : List XcapWindow) (xw : XcapWindow)
    (hws : w.xcap_windows = .ok ws)
    (hm : xcapFindMatch ws wi = some xw)
    (hmin : xw.is_minimized = some true) :
    capture_window_with_backend .xcap w fs wi =
      ⟨.error .windowMinimized, [], fs⟩ := by
  simp [capture_window_with_backend, xcapAsCapOut, capture_window_xcap,
    hws, hm, hmin]

/-- Witness for C1. -/
theorem c1_witness :
    wXcapMin.xcap_windows = .ok [xwMin] ∧
    xcapFindMatch [xwMin] wiTarget = some xwMin ∧
    xwMin.is_minimized = some true ∧
    capture_window_with_backend .xcap wXcapMin [] wiTarget =
      ⟨.error .windowMinimized, [], []⟩ :=
  ⟨rfl, rfl, rfl,
   c1_xcap_minimized_refused wXcapMin [] wiTarget [xwMin] xwMin rfl rfl rfl⟩

/-- C1 counterexample: on the Hyprland backend a minimized WindowInfo is
    captured anyway (grim is spawned and the call returns ok). -/
theorem c1_counterexample :
    wiMin.is_minimized = true ∧
    capture_window_with_backend .hyprland wGrimOk [] wiMin =
      ⟨.ok ⟨⟨800, 600⟩, wiMin⟩,
       [⟨"grim", ["-g", geometryStr wiMin, tempPath wGrimOk]⟩], []⟩ := by
  exact ⟨rfl, rfl⟩

/-- Amended C2: GNOME and KDE fall back to xcap when all subprocesses fail;
    Hyprland and Sway spawn only their own tool. -/
theorem c2_fallback_chain (w : World) (fs : FS) (wi : WindowInfo)
    (hFail : ∀ c, ((w.spawn c).launched && (w.spawn c).success) = false) :
    (list_windows_gnome_wayland w).res = list_windows_xcap w ∧
    (list_windows_kde_wayland w).res = list_windows_xcap w ∧
    (capture_window_gnome_wayland w fs wi).res = capture_window_xcap w wi ∧
    (capture_window_kde_wayland w fs wi).res = capture_window_xcap w wi ∧
    (list_windows_hyprland w).trace = [⟨"hyprctl", ["clients", "-j"]⟩] ∧
    (list_windows_sway w).trace = [⟨"swaymsg", ["-t", "get_tree"]⟩] := by
  refine ⟨?_, ?_, ?_, ?_, ?_, ?_⟩
  · simp [list_windows_gnome_wayland, hFail]
  · simp [list_windows_kde_wayland, hFail]
  · simp [capture_window_gnome_wayland, gnomeCapMethod2, gnomeCapMethod3,
      xcapAsCapOut, spawnFileCmd, hFail]
  · simp [capture_window_kde_wayland, kdeCapGrim, xcapAsCapOut, spawnFileCmd,
      hFail]
  · cases h1 : (w.spawn ⟨"hyprctl", ["clients", "-j"]⟩).launched <;>
      cases h2 : (w.spawn ⟨"hyprctl", ["clients", "-j"]⟩).success <;>
      simp [list_windows_hyprland, h1, h2]
  · cases h1 : (w.spawn ⟨"swaymsg", ["-t", "get_tree"]⟩).launched <;>
      cases h2 : (w.spawn ⟨"swaymsg", ["-t", "get_tree"]⟩).success <;>
      simp [list_windows_sway, h1, h2]

/-- Witness for C2 at a world where every subprocess fails to launch. -/
theorem c2_witness :
    (∀ c, ((wAllFail.spawn c).launched && (wAllFail.spawn c).success) = false) ∧
    (list_windows_gnome_wayland wAllFail).res = list_windows_xcap wAllFail :=
  ⟨fun _ => rfl, (c2_fallback_chain wAllFail [] wiMin (fun _ => rfl)).1⟩

/-- C2 counterexample: a Hyprland listing failure surfaces the raw hyprctl
    subprocess error directly, not the generic backend error. -/
theorem c2_counterexample :
    (list_windows_hyprland wAllFail).res =
      .error (.enumerationFailed "Failed to run hyprctl: No such file or directory") ∧
    list_windows_xcap wAllFail =
      .error (.enumerationFailed "xcap failed to list windows: xcap unavailable") ∧
    (list_windows_hyprland wAllFail).res ≠ list_windows_xcap wAllFail := by
  refine ⟨rfl, rfl, by decide⟩


theorem not_mem_removeFile (fs : FS) (p : String) : p ∉ removeFile fs p := by
  simp [removeFile, List.mem_filter]

theorem capture_with_grim_cleans (w : World) (fs : FS) (temp : String) :
    CleansOnOk (capture_with_grim w fs temp) temp := by
  have key : ∀ r tr fso, capture_with_grim w fs temp = ⟨.ok r, tr, fso⟩ →
      temp ∉ fso := by
    intro r tr fso h
    unfold capture_with_grim spawnFileCmd at h
    dsimp only at h
    split_ifs at h
    all_goals try (have hres := congrArg ScreenCapOut.res h
                   dsimp only at hres
                   exact Except.noConfusion hres)
    all_goals split at h
    all_goals try (have hres := congrArg ScreenCapOut.res h
                   dsimp only at hres
                   exact Except.noConfusion hres)
    all_goals have hfs := congrArg ScreenCapOut.fs h
    all_goals dsimp only at hfs
    all_goals rw [← hfs]
    all_goals exact not_mem_removeFile _ _
  intro r h
  rcases hE : capture_with_grim w fs temp with ⟨res, tr, fso⟩
  rw [hE] at h
  dsimp at h ⊢
  subst h
  exact key r tr fso hE


theorem capture_with_gnome_screenshot_cleans (w : World) (fs : FS) (temp : String) :
    CleansOnOk (capture_with_gnome_screenshot w fs temp) temp := by
  have key : ∀ r tr fso, capture_with_gnome_screenshot w fs temp = ⟨.ok r, tr, fso⟩ →
      temp ∉ fso := by
    intro r tr fso h
    unfold capture_with_gnome_screenshot spawnFileCmd at h
    dsimp only at h
    split_ifs at h
    all_goals try (have hres := congrArg ScreenCapOut.res h
                   dsimp only at hres
                   exact Except.noConfusion hres)
    all_goals split at h
    all_goals try (have hres := congrArg ScreenCapOut.res h
                   dsimp only at hres
                   exact Except.noConfusion hres)
    all_goals have hfs := congrArg ScreenCapOut.fs h
    all_goals dsimp only at hfs
    all_goals rw [← hfs]
    all_goals exact not_mem_removeFile _ _
  intro r h
  rcases hE : capture_with_gnome_screenshot w fs temp with ⟨res, tr, fso⟩
  rw [hE] at h
  dsimp at h ⊢
  subst h
  exact key r tr fso hE

theorem capture_with_spectacle_cleans (w : World) (fs : FS) (temp : String) :
    CleansOnOk (capture_with_spectacle w fs temp) temp := by
  have key : ∀ r tr fso, capture_with_spectacle w fs temp = ⟨.ok r, tr, fso⟩ →
      temp ∉ fso := by
    intro r tr fso h
    unfold capture_with_spectacle spawnFileCmd at h
    dsimp only at h
    split_ifs at h
    all_goals try (have hres := congrArg ScreenCapOut.res h
                   dsimp only at hres
                   exact Except.noConfusion hres)
    all_goals split at h
    all_goals try (have hres := congrArg ScreenCapOut.res h
                   dsimp only at hres
                   exact Except.noConfusion hres)
    all_goals have hfs := congrArg ScreenCapOut.fs h
    all_goals dsimp only at hfs
    all_goals rw [← hfs]
    all_goals exact not_mem_removeFile _ _
  intro r h
  rcases hE : capture_with_spectacle w fs temp with ⟨res, tr, fso⟩
  rw [hE] at h
  dsimp at h ⊢
  subst h
  exact key r tr fso hE

theorem orElseScreen_cleans (r : ScreenCapOut) (w : World) (temp : String)
    (f : World → FS → String → ScreenCapOut)
    (h1 : CleansOnOk r temp) (h2 : ∀ fs2, CleansOnOk (f w fs2 temp) temp) :
    CleansOnOk (orElseScreen r w temp f) temp := by
  intro rr h
  unfold orElseScreen at h ⊢
  cases hres : r.res with
  | ok v =>
    rw [hres] at h
    dsimp only at h ⊢
    exact h1 rr h
  | error e =>
    rw [hres] at h
    dsimp only at h ⊢
    exact h2 r.fs rr h

theorem capture_window_hyprland_cleans_on_ok (w : World) (fs : FS) (wi : WindowInfo) :
    ∀ r, (capture_window_hyprland w fs wi).res = .ok r →
      tempPath w ∉ (capture_window_hyprland w fs wi).fs := by
  have key : ∀ r tr fso, capture_window_hyprland w fs wi = ⟨.ok r, tr, fso⟩ →
      tempPath w ∉ fso := by
    intro r tr fso h
    unfold capture_window_hyprland spawnFileCmd at h
    dsimp only at h
    split_ifs at h
    all_goals try (have hres := congrArg CapOut.res h
                   dsimp only at hres
                   exact Except.noConfusion hres)
    all_goals split at h
    all_goals try (have hres := congrArg CapOut.res h
                   dsimp only at hres
                   exact Except.noConfusion hres)
    all_goals have hfs := congrArg CapOut.fs h
    all_goals dsimp only at hfs
    all_goals rw [← hfs]
    all_goals exact not_mem_removeFile _ _
  intro r h
  rcases hE : capture_window_hyprland w fs wi with ⟨res, tr, fso⟩
  rw [hE] at h
  dsimp at h ⊢
  subst h
  exact key r tr fso hE

/-- Amended C3: the Wayland screen-capture path removes its temp file on
    every exit path; the Hyprland window-capture path removes it on success
    (but not on every failure, see the counterexample). -/
theorem c3_cleanup (w : World) (fs : FS) (de : DesktopEnvironment) (wi : WindowInfo) :
    screenTempPath w ∉ (capture_screen_wayland w fs de).fs ∧
    (∀ r, (capture_window_hyprland w fs wi).res = .ok r →
      tempPath w ∉ (capture_window_hyprland w fs wi).fs) := by
  constructor
  · have hfinal : ∀ (r : ScreenCapOut), CleansOnOk r (screenTempPath w) →
        screenTempPath w ∉
          (match r.res with
           | .error e =>
             (⟨.error e, r.trace, removeFile r.fs (screenTempPath w)⟩ : ScreenCapOut)
           | .ok v => ⟨.ok v, r.trace, r.fs⟩).fs := by
      intro r hc
      cases hres : r.res with
      | error e =>
        dsimp only
        exact not_mem_removeFile _ _
      | ok v =>
        dsimp only
        exact hc v hres
    unfold capture_screen_wayland
    dsimp only
    cases de
    case hyprland => exact hfinal _ (capture_with_grim_cleans w fs _)
    case sway => exact hfinal _ (capture_with_grim_cleans w fs _)
    case gnome =>
      exact hfinal _ (orElseScreen_cleans _ w _ capture_with_grim
        (capture_with_gnome_screenshot_cleans w fs _)
        (fun fs2 => capture_with_grim_cleans w fs2 _))
    case kde =>
      exact hfinal _ (orElseScreen_cleans _ w _ capture_with_grim
        (capture_with_spectacle_cleans w fs _)
        (fun fs2 => capture_with_grim_cleans w fs2 _))
    all_goals
      exact hfinal _ (orElseScreen_cleans _ w _ capture_with_spectacle
        (orElseScreen_cleans _ w _ capture_with_gnome_screenshot
          (capture_with_grim_cleans w fs _)
          (fun fs2 => capture_with_gnome_screenshot_cleans w fs2 _))
        (fun fs2 => capture_with_spectacle_cleans w fs2 _))
  · exact capture_window_hyprland_cleans_on_ok w fs wi

/-- Witness for C3 at a world where grim succeeds and the file decodes. -/
theorem c3_witness :
    (capture_window_hyprland wGrimOk [] wiMin).res = .ok ⟨⟨800, 600⟩, wiMin⟩ ∧
    tempPath wGrimOk ∉ (capture_window_hyprland wGrimOk [] wiMin).fs :=
  ⟨rfl, (c3_cleanup wGrimOk [] .hyprland wiMin).2 ⟨⟨800, 600⟩, wiMin⟩ rfl⟩

/-- C3 counterexample: when grim succeeds but the written file does not
    decode, the Hyprland window capture leaves the temp file behind. -/
theorem c3_counterexample :
    (capture_window_hyprland wBadDecode [] wiMin).res =
      .error (.conversionFailed "Failed to load image: decode error") ∧
    tempPath wBadDecode ∈ (capture_window_hyprland wBadDecode [] wiMin).fs := by
  exact ⟨rfl, by decide⟩

theorem parse_sway_node_not_minimized :
    ∀ obj wi, parse_sway_node obj = some wi → wi.is_minimized = false := by
  intro obj wi h
  unfold parse_sway_node at h
  cases hid : extract_json_number obj ("id".data) with
  | none => rw [hid] at h; exact absurd h (by simp)
  | some id =>
    rw [hid] at h
    dsimp only at h
    injection h with h1
    rw [← h1]

theorem extractSwayAux_not_minimized :
    ∀ fuel json pos acc, (∀ a ∈ acc, a.is_minimized = false) →
      ∀ wi ∈ extractSwayWindowsAux fuel json pos acc, wi.is_minimized = false := by
  intro fuel
  induction fuel with
  | zero => intro json pos acc hacc wi hwi; exact hacc wi hwi
  | succ n ih =>
    intro json pos acc hacc wi hwi
    unfold extractSwayWindowsAux at hwi
    split at hwi
    · exact hacc wi hwi
    · dsimp only at hwi
      split at hwi
      · split at hwi
        · refine ih json _ _ ?_ wi hwi
          intro a ha
          split at ha
          · split at ha
            · split at ha
              · exact hacc a ha
              · rw [List.mem_append] at ha
                rcases ha with ha | ha
                · exact hacc a ha
                · rw [List.mem_singleton] at ha
                  subst ha
                  exact parse_sway_node_not_minimized _ _ (by assumption)
            · exact hacc a ha
          · exact hacc a ha
        · exact ih json _ _ hacc wi hwi
      · exact ih json _ _ hacc wi hwi

/-- Claim C10: every WindowInfo produced by the Sway node parser has
    is_minimized false, so the capturable-windows filter never excludes a
    window listed by the Sway tree parser. -/
theorem c10_sway_never_minimized :
    (∀ obj wi, parse_sway_node obj = some wi → wi.is_minimized = false) ∧
    (∀ json ws, parse_sway_tree json = .ok ws → list_capturable_filter ws = ws) := by
  refine ⟨parse_sway_node_not_minimized, ?_⟩
  intro json ws h
  unfold parse_sway_tree at h
  injection h with h1
  rw [← h1]
  unfold list_capturable_filter
  apply List.filter_eq_self.mpr
  intro a ha
  have hm := extractSwayAux_not_minimized (json.length + 1) json 0 []
    (by intro x hx; cases hx) a ha
  simp [hm]

set_option maxRecDepth 200000 in
/-- Witness for C10 at a concrete Sway node. -/
theorem c10_witness :
    parse_sway_node swaySample.data = some wiS ∧ wiS.is_minimized = false ∧
    parse_sway_tree swaySample.data = .ok [wiS] ∧
    list_capturable_filter [wiS] = [wiS] :=
  ⟨rfl, c10_sway_never_minimized.1 swaySample.data wiS rfl, rfl,
   c10_sway_never_minimized.2 swaySample.data [wiS] rfl⟩


theorem bodyRun_append (xs ys : Chars) (b : Bool) :
    bodyRun (xs ++ ys) b = (bodyRun xs b).bind (fun b2 => bodyRun ys b2) := by
  induction xs generalizing b with
  | nil => simp [bodyRun]
  | cons c cs ih =>
    rw [List.cons_append, bodyRun, bodyRun]
    by_cases h1 : (b && (c == '\\')) = true
    · rw [if_pos h1, if_pos h1]; simp
    · rw [if_neg h1, if_neg h1]
      by_cases h2 : (c == '"') = true
      · rw [if_pos h2, if_pos h2]; exact ih _
      · rw [if_neg h2, if_neg h2]
        by_cases h3 : (!b && ((c == '{') || (c == '}'))) = true
        · rw [if_pos h3, if_pos h3]; simp
        · rw [if_neg h3, if_neg h3]; exact ih _

theorem bodyRun_inStr : ∀ s : Chars, safeStrB s = true → bodyRun s true = some true := by
  intro s
  induction s with
  | nil => intro _; rfl
  | cons c cs ih =>
    intro h
    rw [safeStrB, List.all_cons, Bool.and_eq_true] at h
    obtain ⟨hpred, hrest⟩ := h
    rw [Bool.and_eq_true] at hpred
    obtain ⟨hq, hb⟩ := hpred
    rw [Bool.not_eq_true'] at hq hb
    rw [bodyRun, hb, hq]
    simp only [Bool.and_false, Bool.false_eq_true, if_false]
    exact ih hrest

theorem bodyRun_outStr : ∀ s : Chars, safeLitB s = true → bodyRun s false = some false := by
  intro s
  induction s with
  | nil => intro _; rfl
  | cons c cs ih =>
    intro h
    rw [safeLitB, List.all_cons, Bool.and_eq_true] at h
    obtain ⟨hpred, hrest⟩ := h
    rw [Bool.and_eq_true] at hpred
    obtain ⟨hpred, hcb⟩ := hpred
    rw [Bool.and_eq_true] at hpred
    obtain ⟨hpred, hob⟩ := hpred
    rw [Bool.and_eq_true] at hpred
    obtain ⟨hq, hb⟩ := hpred
    rw [Bool.not_eq_true'] at hq hb hob hcb
    rw [bodyRun, hq, hob, hcb]
    simp only [Bool.false_and, Bool.or_self, Bool.and_false, Bool.false_eq_true,
      if_false]
    exact ih hrest

theorem bodyRun_serVal (v : JVal) (h : valOkB v = true) :
    bodyRun (serVal v) false = some false := by
  cases v with
  | jstr str =>
    rw [serVal]
    rw [show bodyRun ('"' :: (str ++ ['"'])) false = bodyRun (str ++ ['"']) true from rfl]
    rw [bodyRun_append, bodyRun_inStr str h]
    rfl
  | jlit t => exact bodyRun_outStr t h

theorem bodyRun_serField (f : Chars × JVal) (h : fieldOkB f = true) :
    bodyRun (serField f) false = some false := by
  obtain ⟨k, v⟩ := f
  rw [fieldOkB, Bool.and_eq_true] at h
  obtain ⟨hk, hv⟩ := h
  rw [serField]
  rw [show bodyRun ('"' :: (k ++ ('"' :: ':' :: serVal v))) false
        = bodyRun (k ++ ('"' :: ':' :: serVal v)) true from rfl]
  rw [bodyRun_append, bodyRun_inStr k hk]
  rw [show (some true).bind (fun b2 => bodyRun ('"' :: ':' :: serVal v) b2)
        = bodyRun (serVal v) false from rfl]
  exact bodyRun_serVal v hv

theorem bodyRun_joinSep (l : List Chars)
    (h : ∀ x ∈ l, bodyRun x false = some false) :
    bodyRun (joinSep l) false = some false := by
  induction l with
  | nil => rfl
  | cons x xs ih =>
    cases xs with
    | nil => exact h x (by simp)
    | cons y ys =>
      rw [joinSep, bodyRun_append, h x (by simp)]
      rw [show (some false).bind (fun b2 => bodyRun (',' :: joinSep (y :: ys)) b2)
            = bodyRun (joinSep (y :: ys)) false from rfl]
      exact ih (fun z hz => h z (by simp [hz]))

theorem bodyRun_serObjBody (o : List (Chars × JVal)) (h : objOkB o = true) :
    bodyRun (serObjBody o) false = some false := by
  rw [serObjBody]
  apply bodyRun_joinSep
  intro x hx
  rw [List.mem_map] at hx
  obtain ⟨f, hf, rfl⟩ := hx
  exact bodyRun_serField f (by
    rw [objOkB, List.all_eq_true] at h
    exact h f hf)

theorem extractAux_body : ∀ (bs : Chars) (b b' : Bool), bodyRun bs b = some b' →
    ∀ (cs cur : Chars),
      extractAux (bs ++ cs) 1 b false cur = extractAux cs 1 b' false (cur ++ bs) := by
  intro bs
  induction bs with
  | nil =>
    intro b b' hb cs cur
    rw [bodyRun] at hb
    injection hb with hb
    subst hb
    simp
  | cons c bs ih =>
    intro b b' hb cs cur
    rw [bodyRun] at hb
    rw [List.cons_append, extractAux]
    simp only [show ((0 : Int) < 1) = True from by norm_num, if_true,
      Bool.false_eq_true, if_false]
    by_cases h1 : (b && (c == '\\')) = true
    · rw [if_pos h1] at hb
      exact absurd hb (by simp)
    · rw [if_neg h1] at hb
      rw [if_neg h1]
      by_cases h2 : (c == '"') = true
      · rw [if_pos h2] at hb
        rw [if_pos h2]
        rw [ih (!b) b' hb cs (cur ++ [c])]
        rw [List.append_assoc, List.singleton_append]
      · rw [if_neg h2] at hb
        rw [if_neg h2]
        by_cases h3 : (!b && ((c == '{') || (c == '}'))) = true
        · rw [if_pos h3] at hb
          exact absurd hb (by simp)
        · rw [if_neg h3] at hb
          have h4 : (!b && (c == '{')) = false := by
            revert h3
            cases b <;> cases hc : (c == '{') <;> cases hc2 : (c == '}') <;> simp
          have h5 : (!b && (c == '}')) = false := by
            revert h3
            cases b <;> cases hc : (c == '{') <;> cases hc2 : (c == '}') <;> simp
          rw [if_neg (by rw [h4]; exact Bool.false_ne_true)]
          rw [if_neg (by rw [h5]; exact Bool.false_ne_true)]
          rw [ih b b' hb cs (cur ++ [c])]
          rw [List.append_assoc, List.singleton_append]

theorem extractAux_object (body : Chars) (hb : bodyRun body false = some false)
    (cs cur : Chars) :
    extractAux ('{' :: (body ++ ('}' :: cs))) 0 false false cur =
      ('{' :: (body ++ ['}'])) ::
        extractAux cs 0 false false ('{' :: (body ++ ['}'])) := by
  rw [show extractAux ('{' :: (body ++ ('}' :: cs))) 0 false false cur
        = extractAux (body ++ ('}' :: cs)) 1 false false ['{'] from rfl]
  rw [extractAux_body body false false hb ('}' :: cs) ['{']]
  rw [show extractAux ('}' :: cs) 1 false false (['{'] ++ body)
        = ((['{'] ++ body) ++ ['}']) ::
            extractAux cs 0 false false ((['{'] ++ body) ++ ['}']) from rfl]
  simp

theorem extractAux_comma (cs cur : Chars) :
    extractAux (',' :: cs) 0 false false cur = extractAux cs 0 false false cur := rfl

theorem extractAux_serArray : ∀ (objs : List (List (Chars × JVal))),
    arrOkB objs = true →
    ∀ cur, extractAux (serArrayContent objs) 0 false false cur = objs.map serObj := by
  intro objs
  induction objs with
  | nil => intro _ cur; rfl
  | cons o rest ih =>
    intro h cur
    rw [arrOkB, List.all_cons, Bool.and_eq_true] at h
    obtain ⟨ho, hrest⟩ := h
    have hbody : bodyRun (serObjBody o) false = some false := bodyRun_serObjBody o ho
    cases rest with
    | nil =>
      rw [show serArrayContent [o] = '{' :: (serObjBody o ++ ('}' :: [])) from rfl]
      rw [extractAux_object (serObjBody o) hbody [] cur]
      rfl
    | cons o2 rest2 =>
      have hshape : serArrayContent (o :: o2 :: rest2)
          = '{' :: (serObjBody o ++ ('}' :: (',' :: serArrayContent (o2 :: rest2)))) := by
        rw [show serArrayContent (o :: o2 :: rest2)
              = serObj o ++ (',' :: serArrayContent (o2 :: rest2)) from rfl]
        rw [show serObj o = '{' :: (serObjBody o ++ ['}']) from rfl]
        simp
      rw [hshape]
      rw [extractAux_object (serObjBody o) hbody
        (',' :: serArrayContent (o2 :: rest2)) cur]
      rw [extractAux_comma]
      rw [ih hrest ('{' :: (serObjBody o ++ ['}']))]
      rfl

theorem braceRun_body : ∀ (bs : Chars) (b b' : Bool), bodyRun bs b = some b' →
    ∀ (ks : Chars) (d : Int),
      braceRun (bs ++ ks) b false d = braceRun ks b' false d := by
  intro bs
  induction bs with
  | nil =>
    intro b b' hb ks d
    rw [bodyRun] at hb
    injection hb with hb
    subst hb
    rfl
  | cons c bs ih =>
    intro b b' hb ks d
    rw [bodyRun] at hb
    rw [List.cons_append, braceRun]
    simp only [Bool.false_eq_true, if_false]
    by_cases h1 : (b && (c == '\\')) = true
    · rw [if_pos h1] at hb
      exact absurd hb (by simp)
    · rw [if_neg h1] at hb
      rw [if_neg h1]
      by_cases h2 : (c == '"') = true
      · rw [if_pos h2] at hb
        rw [if_pos h2]
        exact ih (!b) b' hb ks d
      · rw [if_neg h2] at hb
        rw [if_neg h2]
        by_cases h3 : (!b && ((c == '{') || (c == '}'))) = true
        · rw [if_pos h3] at hb
          exact absurd hb (by simp)
        · rw [if_neg h3] at hb
          have h4 : (!b && (c == '{')) = false := by
            revert h3
            cases b <;> cases hc : (c == '{') <;> cases hc2 : (c == '}') <;> simp
          have h5 : (!b && (c == '}')) = false := by
            revert h3
            cases b <;> cases hc : (c == '{') <;> cases hc2 : (c == '}') <;> simp
          rw [if_neg (by rw [h4]; exact Bool.false_ne_true)]
          rw [if_neg (by rw [h5]; exact Bool.false_ne_true)]
          exact ih b b' hb ks d

theorem balanced_serObj (o : List (Chars × JVal)) (h : objOkB o = true) :
    balancedBraces (serObj o) = true := by
  rw [balancedBraces, serObj]
  rw [show braceRun ('{' :: (serObjBody o ++ ['}'])) false false 0
        = braceRun (serObjBody o ++ ['}']) false false 1 from rfl]
  rw [braceRun_body (serObjBody o) false false (bodyRun_serObjBody o h) ['}'] 1]
  rfl

/-- Claim C6: on every well-formed JSON array of flat objects the
    balanced-object extractor returns exactly one substring per top-level
    object, and each substring has balanced braces. -/
theorem c6_split_round_trip (objs : List (List (Chars × JVal)))
    (hok : arrOkB objs = true) :
    (splitTopLevelObjects (serArrayContent objs)).length = objs.length ∧
    ∀ s ∈ splitTopLevelObjects (serArrayContent objs), balancedBraces s = true := by
  have hch : splitTopLevelObjects (serArrayContent objs) = objs.map serObj := by
    rw [splitTopLevelObjects]
    exact extractAux_serArray objs hok []
  constructor
  · rw [hch, List.length_map]
  · intro s hs
    rw [hch, List.mem_map] at hs
    obtain ⟨o, ho, rfl⟩ := hs
    refine balanced_serObj o ?_
    rw [arrOkB, List.all_eq_true] at hok
    exact hok o ho

/-- Witness for C6 at a concrete two-object array. -/
theorem c6_witness :
    arrOkB sampleObjs = true ∧
    (splitTopLevelObjects (serArrayContent sampleObjs)).length = sampleObjs.length :=
  ⟨by decide, (c6_split_round_trip sampleObjs (by decide)).1⟩

end SG
